import Mathlib

/-!
Verification of the MedTwin consultation workflow.

The repository is a React frontend (medtwin-react) talking to a Flask
backend.  The frontend sources are embedded here directly
(ConsultationPage.jsx, the DoctorDashboard component, services/api.js);
the Flask backend routes (routes/consultation.py, the doctor ticket
routes) are not part of the available sources, so the backend operations
are modelled from the specification and are marked as such.
-/

namespace MedTwin

/-! ## Pipeline stages and data model (spec section 3) -/

/-- The consultation pipeline stage. -/
inductive Stage
| INTERVIEWING
| ANALYZING
| PLANNING
| AWAITING_REVIEW
| COMPLETED
deriving DecidableEq, Repr

/-- Numeric position of a stage in the pipeline order. -/
def Stage.idx : Stage → Nat
| .INTERVIEWING => 0
| .ANALYZING => 1
| .PLANNING => 2
| .AWAITING_REVIEW => 3
| .COMPLETED => 4

/-- Structured analysis artifact: condition, severity, recommendations. -/
structure AnalysisResult where
  condition : String
  severity : String
  recommendations : String
deriving DecidableEq, Repr

/-- Structured care-plan artifact: daily actions, monitoring, red flags. -/
structure CarePlan where
  dailyActions : List String
  monitoring : List String
  redFlags : List String
deriving DecidableEq, Repr

/-- Tri-state decision field of a medical ticket. -/
inductive Decision
| pending
| approved
| rejected
deriving DecidableEq, Repr

/-- A medical ticket: decision fields plus by-value copies of the
consultation artifacts (spec section 4.3). -/
structure MedicalTicket where
  approved : Decision
  doctorNotes : Option String
  planModifications : Option String
  analysisCopy : AnalysisResult
  planCopy : CarePlan
deriving DecidableEq, Repr

/-- A consultation record (spec section 3).  `pendingQuestion` is the
question the diagnostic agent is currently waiting to have answered. -/
structure Consultation where
  id : Nat
  patientId : Nat
  stage : Stage
  pendingQuestion : String
  collectedData : List (String × String)
  analysisResult : Option AnalysisResult
  carePlan : Option CarePlan
deriving DecidableEq, Repr

/-- One consultation together with its (at most one) medical ticket. -/
structure CaseRecord where
  consult : Consultation
  ticket : Option MedicalTicket
deriving DecidableEq, Repr

/-- Error taxonomy of the workflow (spec section 7). -/
inductive WErr
| InvalidState
| AgentFailure
| TicketNotFound
| TicketAlreadyDecided
deriving DecidableEq, Repr

/-- Which external agent an effect invokes. -/
inductive AgentKind
| diagnostic
| analysis
| planner
deriving DecidableEq, Repr

/-- Externally visible side effects of a backend operation. -/
inductive Effect
| agentCall (k : AgentKind)
| calendarSync
deriving DecidableEq, Repr

/-- Non-fatal warnings attached to a successful backend result. -/
inductive Warning
| SyncFailure
deriving DecidableEq, Repr

/-- Structured reply of the diagnostic agent: completion flag and, when
not complete, the next question to surface. -/
structure DiagOutcome where
  complete : Bool
  nextQuestion : String
deriving DecidableEq, Repr

/-! ## Backend operations

Modelled from the spec: the Flask backend that implements these routes
(gp-backend/routes/consultation.py and the doctor ticket routes) is not
among the available sources; only their frontend callers and the API
declarations in services/api.js are.  Each operation below follows the
contract of spec sections 4.2, 4.4, 6 and 7.  An operation returns the
updated record, the list of external effects it performed, and its
result. -/

/-- Modelled from the spec: `continueConsultation(consultationId,
message)` (spec section 6) — fails with InvalidState unless the
consultation is INTERVIEWING; otherwise appends the (question, answer)
pair to `collectedData`, calls the diagnostic agent, and on
`complete = true` advances the stage to ANALYZING.  A failed agent call
leaves the record unchanged (all-or-nothing, spec section 7). -/
def continueConsultation (r : CaseRecord) (msg : String)
    (diag : Option DiagOutcome) :
    CaseRecord × List Effect × Except WErr DiagOutcome :=
  let c := r.consult
  if c.stage ≠ Stage.INTERVIEWING then (r, [], .error .InvalidState)
  else
    match diag with
    | none => (r, [.agentCall .diagnostic], .error .AgentFailure)
    | some d =>
      let c1 := { c with
        collectedData := c.collectedData ++ [(c.pendingQuestion, msg)] }
      let c2 :=
        if d.complete then { c1 with stage := Stage.ANALYZING }
        else { c1 with pendingQuestion := d.nextQuestion }
      ({ r with consult := c2 }, [.agentCall .diagnostic], .ok d)

/-- Modelled from the spec: `requestAnalysis(consultationId)` (spec
sections 4.2 and 6) — InvalidState when still INTERVIEWING; at
ANALYZING it invokes the analysis agent, storing the artifact and
advancing to PLANNING on success and leaving the record unchanged on
failure; past ANALYZING it is idempotent: it returns the stored
`analysisResult` with no agent call and no mutation. -/
def requestAnalysis (r : CaseRecord) (agent : Option AnalysisResult) :
    CaseRecord × List Effect × Except WErr AnalysisResult :=
  let c := r.consult
  match c.stage with
  | .INTERVIEWING => (r, [], .error .InvalidState)
  | .ANALYZING =>
    match agent with
    | none => (r, [.agentCall .analysis], .error .AgentFailure)
    | some a =>
      ({ r with consult :=
          { c with stage := Stage.PLANNING, analysisResult := some a } },
       [.agentCall .analysis], .ok a)
  | _ =>
    match c.analysisResult with
    | some a => (r, [], .ok a)
    | none => (r, [], .error .InvalidState)

/-- Modelled from the spec: `requestPlan(consultationId)` (spec sections
4.2, 4.3 and 6) — InvalidState before the analysis has succeeded (stage
INTERVIEWING or ANALYZING); at PLANNING it invokes the planner agent
and, on success, stores the plan, advances to AWAITING_REVIEW and
builds the medical ticket with by-value copies of both artifacts; past
PLANNING it is idempotent. -/
def requestPlan (r : CaseRecord) (agent : Option CarePlan) :
    CaseRecord × List Effect × Except WErr CarePlan :=
  let c := r.consult
  match c.stage with
  | .INTERVIEWING => (r, [], .error .InvalidState)
  | .ANALYZING => (r, [], .error .InvalidState)
  | .PLANNING =>
    match c.analysisResult with
    | none => (r, [], .error .InvalidState)
    | some a =>
      match agent with
      | none => (r, [.agentCall .planner], .error .AgentFailure)
      | some p =>
        let c1 := { c with stage := Stage.AWAITING_REVIEW,
                           carePlan := some p }
        let t1 : MedicalTicket :=
          { approved := .pending, doctorNotes := none,
            planModifications := none, analysisCopy := a, planCopy := p }
        ({ consult := c1, ticket := some t1 },
         [.agentCall .planner], .ok p)
  | _ =>
    match c.carePlan with
    | some p => (r, [], .ok p)
    | none => (r, [], .error .InvalidState)

/-- Modelled from the spec: `approveTicket(ticketId, notes,
modifications?)` (spec section 4.4) — precondition: the ticket is
pending, otherwise TicketAlreadyDecided with no mutation; on success it
records the decision, moves the owning consultation to COMPLETED and
triggers the calendar sync; a sync failure is non-fatal and is reported
as a SyncFailure warning on the successful result. -/
def approveTicket (r : CaseRecord) (notes : String)
    (mods : Option String) (syncOk : Bool) :
    CaseRecord × List Effect × Except WErr (List Warning) :=
  match r.ticket with
  | none => (r, [], .error .TicketNotFound)
  | some t =>
    if t.approved ≠ Decision.pending then
      (r, [], .error .TicketAlreadyDecided)
    else
      let t1 := { t with approved := Decision.approved,
                         doctorNotes := some notes,
                         planModifications := mods }
      let c1 :=
        if r.consult.stage = Stage.AWAITING_REVIEW then
          { r.consult with stage := Stage.COMPLETED }
        else r.consult
      ({ consult := c1, ticket := some t1 }, [.calendarSync],
       .ok (if syncOk then [] else [.SyncFailure]))

/-- Modelled from the spec: `rejectTicket(ticketId, notes)` (spec
section 4.4) — precondition: the ticket is pending, otherwise
TicketAlreadyDecided with no mutation; on success it sets
`approved = rejected`, stores the notes, leaves the owning consultation
at AWAITING_REVIEW and attempts no calendar sync. -/
def rejectTicket (r : CaseRecord) (notes : String) :
    CaseRecord × List Effect × Except WErr Unit :=
  match r.ticket with
  | none => (r, [], .error .TicketNotFound)
  | some t =>
    if t.approved ≠ Decision.pending then
      (r, [], .error .TicketAlreadyDecided)
    else
      let t1 := { t with approved := Decision.rejected,
                         doctorNotes := some notes }
      ({ r with ticket := some t1 }, [], .ok ())

/-- One backend operation applied to a case record, with arbitrary
parameters: the transition relation of the consultation pipeline. -/
inductive CaseStep : CaseRecord → CaseRecord → Prop
| continueC (r : CaseRecord) (msg : String) (diag : Option DiagOutcome) :
    CaseStep r (continueConsultation r msg diag).1
| analyze (r : CaseRecord) (agent : Option AnalysisResult) :
    CaseStep r (requestAnalysis r agent).1
| plan (r : CaseRecord) (agent : Option CarePlan) :
    CaseStep r (requestPlan r agent).1
| approve (r : CaseRecord) (notes : String) (mods : Option String)
    (syncOk : Bool) :
    CaseStep r (approveTicket r notes mods syncOk).1
| reject (r : CaseRecord) (notes : String) :
    CaseStep r (rejectTicket r notes).1

/-! ## Client workflow

Embedded from src/medtwin-react/src/pages/ConsultationPage.jsx and the
service layer services/api.js.  Each handler is modelled as a pure
function from the component state and the responses the environment
would return to the new state and the ordered list of service calls the
handler performs.  React state updates are taken to be immediate. -/

/-- A call made through the service layer (services/api.js), or a
browser-level effect the handlers perform. -/
inductive SvcCall
| startConsult (msg : String)
| continueConsult (cid : Nat) (msg : String)
| performAnalysis (cid : Option Nat)
| createCarePlan (cid : Option Nat)
| getStatus
| getConnectUrl
| syncCarePlan (cid : Option Nat)
| openAuthWindow (url : String)
| addMedication (nm : String)
| approveTicketCall (notes : String)
deriving DecidableEq, Repr

/-- Responses the environment returns to `runAgentWorkflow`: whether
each awaited call succeeds, whether the calendar is connected, and
whether the (non-fatal) automatic sync succeeds. -/
structure WorkflowEnv where
  analysisOk : Bool
  planOk : Bool
  statusOk : Bool
  connected : Bool
  syncOk : Bool
deriving DecidableEq, Repr

/-- The diagnostic response consumed by `handleSendMessage`:
`response.response`, `response.completed`, and the
`response.consultationId` present on start responses. -/
structure DiagResponse where
  responseText : String
  completed : Bool
  consultationId : Option Nat
deriving DecidableEq, Repr

/-- Component state of ConsultationPage relevant to the workflow. -/
structure ClientState where
  consultationId : Option Nat
  isTyping : Bool
  isComplete : Bool
deriving DecidableEq, Repr

/-- Environment of one `handleSendMessage` invocation: the diagnostic
response (`none` models a thrown request) and the responses of the
follow-on agent workflow. -/
structure SendEnv where
  diag : Option DiagResponse
  wf : WorkflowEnv
deriving DecidableEq, Repr

/-- Function `runAgentWorkflow` (ConsultationPage.jsx lines 121-211): performs
the analysis call; on success the care-plan call; on success marks the
session complete, checks the calendar status and, when connected,
automatically syncs the care plan (a sync failure is caught and
swallowed).  Returns the ordered service calls and whether
`isComplete` was set. -/
def runAgentWorkflow (id : Option Nat) (env : WorkflowEnv) :
    List SvcCall × Bool :=
  if env.analysisOk = false then
    ([.performAnalysis id], false)
  else if env.planOk = false then
    ([.performAnalysis id, .createCarePlan id], false)
  else if env.statusOk = false then
    ([.performAnalysis id, .createCarePlan id, .getStatus], true)
  else if env.connected then
    ([.performAnalysis id, .createCarePlan id, .getStatus,
      .syncCarePlan id], true)
  else
    ([.performAnalysis id, .createCarePlan id, .getStatus], true)

/-- The blank test of the JS guard `!text.trim()`: true exactly when
the text contains only whitespace. -/
def isBlank (t : String) : Bool :=
  t.data.all (fun ch => ch.isWhitespace)

/-- The diagnostic call `handleSendMessage` makes: `startConsultation`
when no consultation id is stored, `continueConsultation` with the
stored id otherwise (ConsultationPage.jsx lines 84-89). -/
def diagCall (s : ClientState) (text : String) : SvcCall :=
  match s.consultationId with
  | none => .startConsult text
  | some cid => .continueConsult cid text

/-- Function `handleSendMessage` (ConsultationPage.jsx lines 68-119): returns
unchanged with no calls when the text is blank, a message is in flight
(`isTyping`) or the session is complete; otherwise sends the message
(start or continue), saves the returned consultation id on a start
response, and when the response reports `completed` runs
`runAgentWorkflow` on `response.consultationId || consultationId`. -/
def handleSendMessage (s : ClientState) (text : String) (env : SendEnv) :
    ClientState × List SvcCall :=
  if isBlank text = true ∨ s.isTyping = true ∨ s.isComplete = true then
    (s, [])
  else
    match env.diag with
    | none => ({ s with isTyping := false }, [diagCall s text])
    | some resp =>
      let newId :=
        match s.consultationId with
        | none => resp.consultationId
        | some cid => some cid
      if resp.completed then
        let wid :=
          match resp.consultationId with
          | some k => some k
          | none => s.consultationId
        let w := runAgentWorkflow wid env.wf
        ({ consultationId := newId, isTyping := false,
           isComplete := w.2 },
         diagCall s text :: w.1)
      else
        ({ consultationId := newId, isTyping := false,
           isComplete := false },
         [diagCall s text])

/-- A whole chat session: `handleSendMessage` folded over a list of
(text, environment) submissions, accumulating the service calls. -/
def runSession (s : ClientState) :
    List (String × SendEnv) → ClientState × List SvcCall
| [] => (s, [])
| (t, e) :: rest =>
  let step := handleSendMessage s t e
  let tail := runSession step.1 rest
  (tail.1, step.2 ++ tail.2)

/-- Number of `startConsultation` calls in a call list. -/
def startCount (l : List SvcCall) : Nat :=
  (l.filter fun c =>
    match c with
    | .startConsult _ => true
    | _ => false).length

/-- Environment of one `handleAddMedication` invocation:
`status` is the `getStatus` response (`none` models a throw),
`connect` is the `getConnectUrl` response (`none` models a throw,
`some u` a response whose `authorization_url` is `u`). -/
structure MedEnv where
  status : Option Bool
  connect : Option (Option String)
deriving DecidableEq, Repr

/-- Function `handleAddMedication` (ConsultationPage.jsx lines 254-293): first
checks the calendar status; when not connected it requests the connect
URL and, if an `authorization_url` is present, opens it and returns;
otherwise it falls through and calls `medicationService.addMedication`.
Returns the ordered calls performed. -/
def handleAddMedication (nm : String) (env : MedEnv) : List SvcCall :=
  match env.status with
  | none => [.getStatus]
  | some connected =>
    if connected then [.getStatus, .addMedication nm]
    else
      match env.connect with
      | none => [.getStatus, .getConnectUrl]
      | some u =>
        match u with
        | some url => [.getStatus, .getConnectUrl, .openAuthWindow url]
        | none => [.getStatus, .getConnectUrl, .addMedication nm]

/-! ## Interpreting client calls against the backend model

Used to relate the client's automatic calendar sync to the decision
state of the medical ticket at the moment the sync happens. -/

/-- Decision state of the record's ticket, if any. -/
def ticketDecision (r : CaseRecord) : Option Decision :=
  r.ticket.map (fun t => t.approved)

/-- Backend responses used when interpreting a client call list. -/
structure BackendEnv where
  diagOut : Option DiagOutcome
  analysisOut : Option AnalysisResult
  planOut : Option CarePlan
deriving DecidableEq, Repr

/-- Interpret one client service call against the backend model,
recording for each calendar sync the ticket decision state at the
moment the sync is performed. -/
def interpCall (be : BackendEnv) (r : CaseRecord) (c : SvcCall) :
    CaseRecord × List (Option Decision) :=
  match c with
  | .continueConsult _ m => ((continueConsultation r m be.diagOut).1, [])
  | .performAnalysis _ => ((requestAnalysis r be.analysisOut).1, [])
  | .createCarePlan _ => ((requestPlan r be.planOut).1, [])
  | .syncCarePlan _ => (r, [ticketDecision r])
  | .approveTicketCall notes => ((approveTicket r notes none true).1, [])
  | _ => (r, [])

/-- Interpret a client call list in order, accumulating the ticket
decision state observed at each calendar sync. -/
def interpCalls (be : BackendEnv) (r : CaseRecord) :
    List SvcCall → CaseRecord × List (Option Decision)
| [] => (r, [])
| c :: rest =>
  let step := interpCall be r c
  let tail := interpCalls be step.1 rest
  (tail.1, step.2 ++ tail.2)

/-! ## Concrete records used by witnesses and counterexamples -/

/-- A fresh consultation record used in concrete scenarios. -/
def exCase : CaseRecord :=
  { consult := { id := 1, patientId := 5, stage := .INTERVIEWING,
                 pendingQuestion := "How are you feeling today?",
                 collectedData := [], analysisResult := none,
                 carePlan := none },
    ticket := none }

/-- A concrete analysis artifact. -/
def exAnalysis : AnalysisResult :=
  { condition := "flu", severity := "LOW", recommendations := "rest" }

/-- A concrete care plan. -/
def exPlan : CarePlan :=
  { dailyActions := ["hydrate"], monitoring := ["temperature"],
    redFlags := ["high fever"] }

/-- A concrete pending medical ticket. -/
def exTicket : MedicalTicket :=
  { approved := .pending, doctorNotes := none,
    planModifications := none, analysisCopy := exAnalysis,
    planCopy := exPlan }

/-- A record whose consultation awaits review with a pending ticket. -/
def exAwaiting : CaseRecord :=
  { consult := { id := 1, patientId := 5, stage := .AWAITING_REVIEW,
                 pendingQuestion := "",
                 collectedData := [("q", "a")],
                 analysisResult := some exAnalysis,
                 carePlan := some exPlan },
    ticket := some exTicket }

/-- A record whose consultation is at PLANNING with a stored analysis. -/
def exPlanning : CaseRecord :=
  { consult := { id := 1, patientId := 5, stage := .PLANNING,
                 pendingQuestion := "",
                 collectedData := [("q", "a")],
                 analysisResult := some exAnalysis, carePlan := none },
    ticket := none }

/-- Client state with a stored consultation id and no message in
flight. -/
def exClient : ClientState :=
  { consultationId := some 1, isTyping := false, isComplete := false }

/-- Send environment whose diagnostic response reports completion and
whose follow-on workflow fully succeeds with a connected calendar. -/
def exSendEnv : SendEnv :=
  { diag := some { responseText := "Interview complete.",
                   completed := true, consultationId := none },
    wf := { analysisOk := true, planOk := true, statusOk := true,
            connected := true, syncOk := true } }

/-- Backend responses for interpreting the example client run. -/
def exBackendEnv : BackendEnv :=
  { diagOut := some { complete := true, nextQuestion := "" },
    analysisOut := some exAnalysis, planOut := some exPlan }

/-- Client state with a message already in flight. -/
def exTyping : ClientState :=
  { consultationId := none, isTyping := true, isComplete := false }

/-- Fresh client state: no consultation started yet. -/
def exFresh : ClientState :=
  { consultationId := none, isTyping := false, isComplete := false }

/-- Send environment whose diagnostic request throws. -/
def exErrEnv : SendEnv :=
  { diag := none,
    wf := { analysisOk := true, planOk := true, statusOk := true,
            connected := true, syncOk := true } }

/-- Send environment whose start response asks a follow-up question
and returns consultation id 7. -/
def exStartEnv : SendEnv :=
  { diag := some { responseText := "Since when?", completed := false,
                   consultationId := some 7 },
    wf := { analysisOk := true, planOk := true, statusOk := true,
            connected := false, syncOk := true } }

end MedTwin

namespace MedTwin

/-! ## Theorems -/

/-- C3: `requestAnalysis` is idempotent: past ANALYZING it returns the
stored `analysisResult` unchanged, performs no agent call, and leaves
the record untouched. -/
theorem C3_requestAnalysis_idempotent
    (r : CaseRecord) (agent : Option AnalysisResult) (a : AnalysisResult)
    (hst : r.consult.stage = .PLANNING ∨
           r.consult.stage = .AWAITING_REVIEW ∨
           r.consult.stage = .COMPLETED)
    (hres : r.consult.analysisResult = some a) :
    requestAnalysis r agent = (r, [], .ok a) := by
  rcases hst with h | h | h <;> simp [requestAnalysis, h, hres]

/-- Witness for C3 at a concrete record in stage PLANNING. -/
theorem C3_requestAnalysis_idempotent_witness :
    requestAnalysis exPlanning (some exAnalysis) =
      (exPlanning, [], .ok exAnalysis) :=
  C3_requestAnalysis_idempotent exPlanning (some exAnalysis) exAnalysis
    (Or.inl rfl) rfl

/-- C4: `approveTicket` on an already-decided ticket fails with
TicketAlreadyDecided and leaves the record (hence the prior decision
fields) untouched. -/
theorem C4_approve_already_decided
    (r : CaseRecord) (t : MedicalTicket) (notes : String)
    (mods : Option String) (sOk : Bool)
    (ht : r.ticket = some t) (hd : t.approved ≠ .pending) :
    approveTicket r notes mods sOk = (r, [], .error .TicketAlreadyDecided) := by
  simp [approveTicket, ht, hd]

/-- Witness for C4 at a concrete already-approved ticket. -/
theorem C4_approve_already_decided_witness :
    approveTicket
      { exAwaiting with
        ticket := some { exTicket with approved := .approved } }
      "second try" none true =
      ({ exAwaiting with
         ticket := some { exTicket with approved := .approved } },
       [], .error .TicketAlreadyDecided) :=
  C4_approve_already_decided _ { exTicket with approved := .approved }
    "second try" none true rfl (by decide)

/-- C5: `rejectTicket` on a pending ticket sets the decision to
rejected, stores the notes, leaves the owning consultation (and so its
AWAITING_REVIEW stage) untouched, and attempts no calendar sync. -/
theorem C5_reject_behavior
    (r : CaseRecord) (t : MedicalTicket) (notes : String)
    (ht : r.ticket = some t) (hd : t.approved = .pending) :
    (rejectTicket r notes).1.consult = r.consult ∧
    (rejectTicket r notes).1.ticket =
      some { t with approved := .rejected, doctorNotes := some notes } ∧
    (rejectTicket r notes).2.1 = [] := by
  refine ⟨?_, ?_, ?_⟩ <;> simp [rejectTicket, ht, hd]

/-- Witness for C5 at a concrete pending ticket. -/
theorem C5_reject_behavior_witness :
    (rejectTicket exAwaiting "insufficient data").1.consult =
        exAwaiting.consult ∧
    (rejectTicket exAwaiting "insufficient data").1.ticket =
      some { exTicket with approved := .rejected,
                           doctorNotes := some "insufficient data" } ∧
    (rejectTicket exAwaiting "insufficient data").2.1 = [] :=
  C5_reject_behavior exAwaiting exTicket "insufficient data" rfl rfl

/-- C6: a calendar-sync failure during `approveTicket` is non-fatal:
the ticket still ends approved, the consultation still reaches
COMPLETED, and the successful response carries a SyncFailure warning. -/
theorem C6_sync_failure_nonfatal
    (r : CaseRecord) (t : MedicalTicket) (notes : String)
    (mods : Option String)
    (ht : r.ticket = some t) (hd : t.approved = .pending)
    (hs : r.consult.stage = .AWAITING_REVIEW) :
    (approveTicket r notes mods false).1.ticket =
      some { t with approved := .approved, doctorNotes := some notes,
                    planModifications := mods } ∧
    (approveTicket r notes mods false).1.consult.stage = .COMPLETED ∧
    (approveTicket r notes mods false).2.2 = .ok [.SyncFailure] := by
  refine ⟨?_, ?_, ?_⟩ <;> simp [approveTicket, ht, hd, hs]

/-- Witness for C6 at a concrete pending ticket whose sync fails. -/
theorem C6_sync_failure_nonfatal_witness :
    (approveTicket exAwaiting "ok" none false).1.ticket =
      some { exTicket with approved := .approved,
                           doctorNotes := some "ok",
                           planModifications := none } ∧
    (approveTicket exAwaiting "ok" none false).1.consult.stage =
        .COMPLETED ∧
    (approveTicket exAwaiting "ok" none false).2.2 =
        .ok [.SyncFailure] :=
  C6_sync_failure_nonfatal exAwaiting exTicket "ok" none rfl rfl rfl

/-- C7: `requestPlan` before the analysis has succeeded (stage
INTERVIEWING or ANALYZING) fails with InvalidState and produces no care
plan: the record is returned unchanged. -/
theorem C7_plan_before_analysis
    (r : CaseRecord) (agent : Option CarePlan)
    (hst : r.consult.stage = .INTERVIEWING ∨
           r.consult.stage = .ANALYZING) :
    requestPlan r agent = (r, [], .error .InvalidState) ∧
    (requestPlan r agent).1.consult.carePlan = r.consult.carePlan := by
  rcases hst with h | h <;>
    exact ⟨by simp [requestPlan, h], by simp [requestPlan, h]⟩

/-- Witness for C7 at a concrete interviewing-stage record. -/
theorem C7_plan_before_analysis_witness :
    requestPlan exCase (some exPlan) =
        (exCase, [], .error .InvalidState) ∧
    (requestPlan exCase (some exPlan)).1.consult.carePlan =
        exCase.consult.carePlan :=
  C7_plan_before_analysis exCase (some exPlan) (Or.inl rfl)

/-- C8: two `continueConsultation` calls for the same consultation,
serialized in submission order by the mandatory per-consultation lock,
leave `collectedData` with both (question, answer) entries intact and
in submission order; the stage transition to ANALYZING is triggered at
most once — in particular, when the first call already completed the
interview, the second call fails with InvalidState and mutates
nothing. -/
theorem C8_serialized_continue
    (r : CaseRecord) (m1 m2 : String) (o1 o2 : DiagOutcome)
    (h0 : r.consult.stage = .INTERVIEWING) :
    (o1.complete = false →
      (continueConsultation (continueConsultation r m1 (some o1)).1 m2
          (some o2)).1.consult.collectedData =
        r.consult.collectedData ++
          [(r.consult.pendingQuestion, m1), (o1.nextQuestion, m2)] ∧
      (continueConsultation (continueConsultation r m1 (some o1)).1 m2
          (some o2)).1.consult.stage =
        (if o2.complete then Stage.ANALYZING else Stage.INTERVIEWING)) ∧
    (o1.complete = true →
      continueConsultation (continueConsultation r m1 (some o1)).1 m2
          (some o2) =
        ((continueConsultation r m1 (some o1)).1, [],
         .error .InvalidState)) := by
  constructor
  · intro h1
    cases ho2 : o2.complete <;>
      simp [continueConsultation, h0, h1, ho2]
  · intro h1
    simp [continueConsultation, h0, h1]

/-- Witness for C8: a concrete two-message run (first response asks a
follow-up, second completes the interview), and a concrete run whose
first response already completed. -/
theorem C8_serialized_continue_witness :
    ((continueConsultation
        (continueConsultation exCase "headache"
          (some { complete := false,
                  nextQuestion := "Since when?" })).1 "two days"
        (some { complete := true,
                nextQuestion := "" })).1.consult.collectedData =
      [("How are you feeling today?", "headache"),
       ("Since when?", "two days")]) ∧
    (continueConsultation
        (continueConsultation exCase "headache"
          (some { complete := true, nextQuestion := "" })).1 "extra"
        (some { complete := false, nextQuestion := "q" })) =
      ((continueConsultation exCase "headache"
          (some { complete := true, nextQuestion := "" })).1, [],
       .error .InvalidState) := by
  have base := C8_serialized_continue exCase "headache" "two days"
    { complete := false, nextQuestion := "Since when?" }
    { complete := true, nextQuestion := "" } rfl
  have twice := C8_serialized_continue exCase "headache" "extra"
    { complete := true, nextQuestion := "" }
    { complete := false, nextQuestion := "q" } rfl
  exact ⟨(base.1 rfl).1, twice.2 rfl⟩

/-! ### Stage-monotonicity helper lemmas (one per backend operation) -/

/-- The diagnostic step keeps the stage or advances it by one. -/
theorem stage_mono_continue (r : CaseRecord) (msg : String)
    (d : Option DiagOutcome) :
    (continueConsultation r msg d).1.consult.stage = r.consult.stage ∨
    (continueConsultation r msg d).1.consult.stage.idx =
      r.consult.stage.idx + 1 := by
  by_cases h : r.consult.stage = Stage.INTERVIEWING
  · cases d with
    | none => left; simp [continueConsultation, h]
    | some o =>
      cases ho : o.complete
      · left; simp [continueConsultation, h, ho]
      · right; simp [continueConsultation, h, ho, Stage.idx]
  · left; simp [continueConsultation, h]

/-- The analysis step keeps the stage or advances it by one. -/
theorem stage_mono_analysis (r : CaseRecord)
    (agent : Option AnalysisResult) :
    (requestAnalysis r agent).1.consult.stage = r.consult.stage ∨
    (requestAnalysis r agent).1.consult.stage.idx =
      r.consult.stage.idx + 1 := by
  cases hst : r.consult.stage
  case INTERVIEWING => left; simp [requestAnalysis, hst]
  case ANALYZING =>
    cases agent with
    | none => left; simp [requestAnalysis, hst]
    | some a => right; simp [requestAnalysis, hst, Stage.idx]
  all_goals
    cases hres : r.consult.analysisResult <;>
      simp [requestAnalysis, hst, hres]

/-- The planning step keeps the stage or advances it by one. -/
theorem stage_mono_plan (r : CaseRecord) (agent : Option CarePlan) :
    (requestPlan r agent).1.consult.stage = r.consult.stage ∨
    (requestPlan r agent).1.consult.stage.idx =
      r.consult.stage.idx + 1 := by
  cases hst : r.consult.stage
  case INTERVIEWING => left; simp [requestPlan, hst]
  case ANALYZING => left; simp [requestPlan, hst]
  case PLANNING =>
    cases hres : r.consult.analysisResult with
    | none => left; simp [requestPlan, hst, hres]
    | some a =>
      cases agent with
      | none => left; simp [requestPlan, hst, hres]
      | some p => right; simp [requestPlan, hst, hres, Stage.idx]
  all_goals
    cases hcp : r.consult.carePlan <;> simp [requestPlan, hst, hcp]

/-- The approval step keeps the stage or advances it by one. -/
theorem stage_mono_approve (r : CaseRecord) (notes : String)
    (mods : Option String) (sOk : Bool) :
    (approveTicket r notes mods sOk).1.consult.stage =
        r.consult.stage ∨
    (approveTicket r notes mods sOk).1.consult.stage.idx =
      r.consult.stage.idx + 1 := by
  cases ht : r.ticket with
  | none => left; simp [approveTicket, ht]
  | some t =>
    by_cases hd : t.approved = Decision.pending
    · by_cases hs : r.consult.stage = Stage.AWAITING_REVIEW
      · right; simp [approveTicket, ht, hd, hs, Stage.idx]
      · left; simp [approveTicket, ht, hd, hs]
    · left; simp [approveTicket, ht, hd]

/-- The rejection step never changes the consultation. -/
theorem stage_mono_reject (r : CaseRecord) (notes : String) :
    (rejectTicket r notes).1.consult = r.consult := by
  cases ht : r.ticket with
  | none => simp [rejectTicket, ht]
  | some t =>
    by_cases hd : t.approved = Decision.pending <;>
      simp [rejectTicket, ht, hd]

/-! ### Client-call shape helper lemmas -/

/-- The diagnostic call is never an analysis call. -/
theorem diagCall_ne_pa (s : ClientState) (text : String)
    (i : Option Nat) : diagCall s text ≠ .performAnalysis i := by
  unfold diagCall; cases s.consultationId <;> simp

/-- The diagnostic call is never a care-plan call. -/
theorem diagCall_ne_cc (s : ClientState) (text : String)
    (i : Option Nat) : diagCall s text ≠ .createCarePlan i := by
  unfold diagCall; cases s.consultationId <;> simp

/-- The diagnostic call is never a calendar-sync call. -/
theorem diagCall_ne_sync (s : ClientState) (text : String)
    (i : Option Nat) : diagCall s text ≠ .syncCarePlan i := by
  unfold diagCall; cases s.consultationId <;> simp

/-- The agent workflow emits a care-plan call only when the analysis
call succeeded, and always with the workflow's consultation id. -/
theorem wf_mem_cc (id : Option Nat) (env : WorkflowEnv) (i : Option Nat)
    (h : SvcCall.createCarePlan i ∈ (runAgentWorkflow id env).1) :
    env.analysisOk = true ∧ i = id := by
  unfold runAgentWorkflow at h
  by_cases ha : env.analysisOk = false
  · simp [ha] at h
  · have ha1 : env.analysisOk = true := by
      cases hb : env.analysisOk
      · exact absurd hb ha
      · rfl
    refine ⟨ha1, ?_⟩
    by_cases hp : env.planOk = false <;>
      by_cases hs : env.statusOk = false <;>
        by_cases hc : env.connected = true <;>
          simp_all

/-- When the analysis succeeded, the workflow's call list contains the
analysis call followed (in order) by the care-plan call. -/
theorem wf_sublist_cc (id : Option Nat) (env : WorkflowEnv)
    (h : env.analysisOk = true) :
    List.Sublist [SvcCall.performAnalysis id, SvcCall.createCarePlan id]
      (runAgentWorkflow id env).1 := by
  unfold runAgentWorkflow
  by_cases hp : env.planOk = false <;>
    by_cases hs : env.statusOk = false <;>
      by_cases hc : env.connected = true <;>
        simp_all

/-- The workflow never emits a `startConsultation` call. -/
theorem wf_no_start (id : Option Nat) (env : WorkflowEnv) (m : String) :
    SvcCall.startConsult m ∉ (runAgentWorkflow id env).1 := by
  unfold runAgentWorkflow
  by_cases ha : env.analysisOk = false <;>
    by_cases hp : env.planOk = false <;>
      by_cases hs : env.statusOk = false <;>
        by_cases hc : env.connected = true <;>
          simp_all

/-- The workflow never emits a `continueConsultation` call. -/
theorem wf_no_continue (id : Option Nat) (env : WorkflowEnv) (c : Nat)
    (m : String) :
    SvcCall.continueConsult c m ∉ (runAgentWorkflow id env).1 := by
  unfold runAgentWorkflow
  by_cases ha : env.analysisOk = false <;>
    by_cases hp : env.planOk = false <;>
      by_cases hs : env.statusOk = false <;>
        by_cases hc : env.connected = true <;>
          simp_all

/-- Shape of the call list of one `handleSendMessage` invocation: no
calls, the diagnostic call alone, or the diagnostic call followed by
the agent workflow of a completed diagnostic response. -/
theorem hsm_calls_shape (s : ClientState) (text : String)
    (env : SendEnv) :
    (handleSendMessage s text env).2 = [] ∨
    (handleSendMessage s text env).2 = [diagCall s text] ∨
    ∃ resp wid, env.diag = some resp ∧ resp.completed = true ∧
      (handleSendMessage s text env).2 =
        diagCall s text :: (runAgentWorkflow wid env.wf).1 := by
  unfold handleSendMessage
  by_cases hg : isBlank text = true ∨ s.isTyping = true ∨ s.isComplete = true
  · left; simp [hg]
  · cases hd : env.diag with
    | none => right; left; simp [hg, hd]
    | some resp =>
      cases hc : resp.completed
      · right; left; simp [hg, hd, hc]
      · right; right
        refine ⟨resp,
          (match resp.consultationId with
           | some k => some k
           | none => s.consultationId), rfl, hc, ?_⟩
        simp [hg, hd, hc]

/-- C1: the consultation stage only moves forward through the pipeline
order, never regressing and never skipping a stage (every backend
operation keeps the stage or advances it by exactly one position); and
in the client workflow the care-plan call is made only after the
analysis call has returned successfully (and after it in order), while
the analysis call is made only when the diagnostic response reported
`completed = true`. -/
theorem C1_stage_order :
    (∀ r r' : CaseRecord, CaseStep r r' →
      r'.consult.stage = r.consult.stage ∨
      r'.consult.stage.idx = r.consult.stage.idx + 1) ∧
    (∀ (s : ClientState) (text : String) (env : SendEnv)
        (i : Option Nat),
      SvcCall.createCarePlan i ∈ (handleSendMessage s text env).2 →
        env.wf.analysisOk = true ∧
        List.Sublist
          [SvcCall.performAnalysis i, SvcCall.createCarePlan i]
          (handleSendMessage s text env).2) ∧
    (∀ (s : ClientState) (text : String) (env : SendEnv)
        (i : Option Nat),
      SvcCall.performAnalysis i ∈ (handleSendMessage s text env).2 →
        ∃ resp, env.diag = some resp ∧ resp.completed = true) := by
  refine ⟨?_, ?_, ?_⟩
  · intro r r' h
    cases h with
    | continueC msg diag => exact stage_mono_continue r msg diag
    | analyze agent => exact stage_mono_analysis r agent
    | plan agent => exact stage_mono_plan r agent
    | approve notes mods sOk =>
      exact stage_mono_approve r notes mods sOk
    | reject notes =>
      exact Or.inl
        (congrArg Consultation.stage (stage_mono_reject r notes))
  · intro s text env i hmem
    rcases hsm_calls_shape s text env with h | h | ⟨resp, wid, hd, hc, h⟩
    · rw [h] at hmem; simp at hmem
    · rw [h] at hmem; simp at hmem
      exact absurd hmem.symm (diagCall_ne_cc s text i)
    · rw [h] at hmem
      rcases List.mem_cons.mp hmem with he | hin
      · exact absurd he.symm (diagCall_ne_cc s text i)
      · obtain ⟨ha, hi⟩ := wf_mem_cc wid env.wf i hin
        refine ⟨ha, ?_⟩
        rw [h, hi]
        exact List.Sublist.cons _ (wf_sublist_cc wid env.wf ha)
  · intro s text env i hmem
    rcases hsm_calls_shape s text env with h | h | ⟨resp, wid, hd, hc, h⟩
    · rw [h] at hmem; simp at hmem
    · rw [h] at hmem; simp at hmem
      exact absurd hmem.symm (diagCall_ne_pa s text i)
    · exact ⟨resp, hd, hc⟩

/-- Witness for C1: a concrete interview-completing step advances the
stage by one, and in a concrete client run the care-plan call is
preceded by a successful analysis call triggered by a completed
diagnostic response. -/
theorem C1_stage_order_witness :
    ((continueConsultation exCase "hi"
        (some { complete := true,
                nextQuestion := "" })).1.consult.stage =
          exCase.consult.stage ∨
      (continueConsultation exCase "hi"
        (some { complete := true,
                nextQuestion := "" })).1.consult.stage.idx =
          exCase.consult.stage.idx + 1) ∧
    (exSendEnv.wf.analysisOk = true ∧
      List.Sublist
        [SvcCall.performAnalysis (some 1),
         SvcCall.createCarePlan (some 1)]
        (handleSendMessage exClient "I feel dizzy" exSendEnv).2) ∧
    (∃ resp, exSendEnv.diag = some resp ∧ resp.completed = true) :=
  ⟨C1_stage_order.1 exCase _
      (CaseStep.continueC exCase "hi"
        (some { complete := true, nextQuestion := "" })),
   C1_stage_order.2.1 exClient "I feel dizzy" exSendEnv (some 1)
      (by decide),
   C1_stage_order.2.2 exClient "I feel dizzy" exSendEnv (some 1)
      (by decide)⟩

/-! ### Ticket-preservation helper lemmas -/

/-- The diagnostic step never touches the ticket. -/
theorem ticket_continue (r : CaseRecord) (msg : String)
    (d : Option DiagOutcome) :
    (continueConsultation r msg d).1.ticket = r.ticket := by
  by_cases h : r.consult.stage = Stage.INTERVIEWING
  · cases d with
    | none => simp [continueConsultation, h]
    | some o =>
      cases ho : o.complete <;> simp [continueConsultation, h, ho]
  · simp [continueConsultation, h]

/-- The analysis step never touches the ticket. -/
theorem ticket_analysis (r : CaseRecord)
    (agent : Option AnalysisResult) :
    (requestAnalysis r agent).1.ticket = r.ticket := by
  cases hst : r.consult.stage
  case ANALYZING =>
    cases agent <;> simp [requestAnalysis, hst]
  case INTERVIEWING => simp [requestAnalysis, hst]
  all_goals
    cases hres : r.consult.analysisResult <;>
      simp [requestAnalysis, hst, hres]

/-- The planning step leaves the ticket alone or creates it pending. -/
theorem ticket_plan (r : CaseRecord) (agent : Option CarePlan) :
    (requestPlan r agent).1.ticket = r.ticket ∨
    ∃ t, (requestPlan r agent).1.ticket = some t ∧
      t.approved = .pending := by
  cases hst : r.consult.stage
  case INTERVIEWING => left; simp [requestPlan, hst]
  case ANALYZING => left; simp [requestPlan, hst]
  case PLANNING =>
    cases hres : r.consult.analysisResult with
    | none => left; simp [requestPlan, hst, hres]
    | some a =>
      cases agent with
      | none => left; simp [requestPlan, hst, hres]
      | some p =>
        right
        refine ⟨{ approved := .pending, doctorNotes := none,
                  planModifications := none, analysisCopy := a,
                  planCopy := p }, ?_, rfl⟩
        simp [requestPlan, hst, hres]
  all_goals
    left; cases hcp : r.consult.carePlan <;> simp [requestPlan, hst, hcp]

/-- The rejection step leaves the ticket alone or marks it rejected. -/
theorem ticket_reject (r : CaseRecord) (notes : String) :
    (rejectTicket r notes).1.ticket = r.ticket ∨
    ∃ t, (rejectTicket r notes).1.ticket = some t ∧
      t.approved = .rejected := by
  cases ht : r.ticket with
  | none => left; simp [rejectTicket, ht]
  | some t =>
    by_cases hd : t.approved = Decision.pending
    · right
      have hres : (rejectTicket r notes).1.ticket =
          some { t with approved := .rejected, doctorNotes := some notes } := by
        simp [rejectTicket, ht, hd]
      exact ⟨_, hres, rfl⟩
    · left; simp [rejectTicket, ht, hd]

/-- The agent workflow emits a calendar sync only when the analysis,
the plan and the status check all succeeded with a connected calendar,
and always with the workflow's consultation id. -/
theorem wf_mem_sync (id : Option Nat) (env : WorkflowEnv)
    (i : Option Nat)
    (h : SvcCall.syncCarePlan i ∈ (runAgentWorkflow id env).1) :
    env.analysisOk = true ∧ env.planOk = true ∧ env.statusOk = true ∧
    env.connected = true ∧ i = id := by
  unfold runAgentWorkflow at h
  by_cases ha : env.analysisOk = false <;>
    by_cases hp : env.planOk = false <;>
      by_cases hs : env.statusOk = false <;>
        by_cases hc : env.connected = true <;>
          simp_all

/-- When the whole workflow succeeds with a connected calendar, its
call list contains analysis, care-plan and sync calls in that order. -/
theorem wf_sublist_sync (id : Option Nat) (env : WorkflowEnv)
    (h1 : env.analysisOk = true) (h2 : env.planOk = true)
    (h3 : env.statusOk = true) (h4 : env.connected = true) :
    List.Sublist
      [SvcCall.performAnalysis id, SvcCall.createCarePlan id,
       SvcCall.syncCarePlan id]
      (runAgentWorkflow id env).1 := by
  unfold runAgentWorkflow
  simp only [h1, h2, h3, h4]
  simp only [Bool.true_eq_false, if_false, if_true]
  exact List.Sublist.cons₂ _ (List.Sublist.cons₂ _
    (List.Sublist.cons _ (List.Sublist.cons₂ _ List.Sublist.slnil)))

/-- C2 counterexample: in a concrete client run (connected calendar,
all agent calls succeeding) the automatic Notifier sync fires right
after the care plan is generated: interpreting the emitted calls
against the backend model, the calendar sync is performed while the
owning ticket's decision is still `pending` — i.e. before the ticket
has been approved, refuting the claim that no calendar sync of the
care plan occurs before approval. -/
theorem C2_sync_before_approval_counterexample :
    (interpCalls exBackendEnv exCase
      (handleSendMessage exClient "I feel dizzy" exSendEnv).2).2 =
      [some Decision.pending] := by decide

/-- C2 amended: a doctor's approve decision is still the only way a
ticket becomes approved (a care plan becomes active), and approval
triggers the calendar sync; but approval is not a precondition for
syncing: the client automatically syncs the care plan as soon as it is
generated when the calendar is connected, so a sync may occur while
the ticket is still pending.  Every client-side sync happens only
after the analysis and care-plan calls succeeded, in order. -/
theorem C2_amended_review_gate :
    (∀ r r' : CaseRecord, CaseStep r r' →
      ticketDecision r' = some .approved →
      ticketDecision r = some .approved ∨
      ∃ notes mods sOk, r' = (approveTicket r notes mods sOk).1) ∧
    (∀ (r : CaseRecord) (t : MedicalTicket) (notes : String)
        (mods : Option String) (sOk : Bool),
      r.ticket = some t → t.approved = .pending →
      (approveTicket r notes mods sOk).2.1 = [Effect.calendarSync]) ∧
    (∀ (s : ClientState) (text : String) (env : SendEnv)
        (i : Option Nat),
      SvcCall.syncCarePlan i ∈ (handleSendMessage s text env).2 →
        env.wf.analysisOk = true ∧ env.wf.planOk = true ∧
        env.wf.connected = true ∧
        List.Sublist
          [SvcCall.performAnalysis i, SvcCall.createCarePlan i,
           SvcCall.syncCarePlan i]
          (handleSendMessage s text env).2) := by
  refine ⟨?_, ?_, ?_⟩
  · intro r r' hstep hact
    cases hstep with
    | continueC msg diag =>
      left; unfold ticketDecision at hact ⊢
      rw [ticket_continue] at hact; exact hact
    | analyze agent =>
      left; unfold ticketDecision at hact ⊢
      rw [ticket_analysis] at hact; exact hact
    | plan agent =>
      rcases ticket_plan r agent with he | ⟨t, he, hp⟩
      · left; unfold ticketDecision at hact ⊢
        rw [he] at hact; exact hact
      · exfalso; unfold ticketDecision at hact
        rw [he] at hact; simp at hact
        rw [hp] at hact; exact absurd hact (by decide)
    | approve notes mods sOk => right; exact ⟨notes, mods, sOk, rfl⟩
    | reject notes =>
      rcases ticket_reject r notes with he | ⟨t, he, hp⟩
      · left; unfold ticketDecision at hact ⊢
        rw [he] at hact; exact hact
      · exfalso; unfold ticketDecision at hact
        rw [he] at hact; simp at hact
        rw [hp] at hact; exact absurd hact (by decide)
  · intro r t notes mods sOk ht hd
    simp [approveTicket, ht, hd]
  · intro s text env i hmem
    rcases hsm_calls_shape s text env with h | h | ⟨resp, wid, hd, hc, h⟩
    · rw [h] at hmem; simp at hmem
    · rw [h] at hmem; simp at hmem
      exact absurd hmem.symm (diagCall_ne_sync s text i)
    · rw [h] at hmem
      rcases List.mem_cons.mp hmem with he | hin
      · exact absurd he.symm (diagCall_ne_sync s text i)
      · obtain ⟨ha, hp, hs, hcn, hi⟩ := wf_mem_sync wid env.wf i hin
        refine ⟨ha, hp, hcn, ?_⟩
        rw [h, hi]
        exact List.Sublist.cons _
          (wf_sublist_sync wid env.wf ha hp hs hcn)

/-- Witness for the amended C2: a concrete approval is the approve
step, approval of the concrete pending ticket emits exactly the sync
effect, and the concrete client run orders analysis, plan and sync. -/
theorem C2_amended_review_gate_witness :
    (ticketDecision exAwaiting = some .approved ∨
      ∃ notes mods sOk,
        (approveTicket exAwaiting "ok" none true).1 =
          (approveTicket exAwaiting notes mods sOk).1) ∧
    (approveTicket exAwaiting "ok" none true).2.1 =
        [Effect.calendarSync] ∧
    (exSendEnv.wf.analysisOk = true ∧ exSendEnv.wf.planOk = true ∧
      exSendEnv.wf.connected = true ∧
      List.Sublist
        [SvcCall.performAnalysis (some 1),
         SvcCall.createCarePlan (some 1),
         SvcCall.syncCarePlan (some 1)]
        (handleSendMessage exClient "I feel dizzy" exSendEnv).2) :=
  ⟨C2_amended_review_gate.1 exAwaiting _
      (CaseStep.approve exAwaiting "ok" none true) (by decide),
   C2_amended_review_gate.2.1 exAwaiting exTicket "ok" none true
      rfl rfl,
   C2_amended_review_gate.2.2 exClient "I feel dizzy" exSendEnv
      (some 1) (by decide)⟩

/-! ### Session helper lemmas for C9 -/

/-- Function `handleSendMessage` is a no-op when the guard fires. -/
theorem hsm_guard (s : ClientState) (t : String) (env : SendEnv)
    (h : isBlank t = true ∨ s.isTyping = true ∨ s.isComplete = true) :
    handleSendMessage s t env = (s, []) := by
  unfold handleSendMessage; rw [if_pos h]

/-- Function `startCount` distributes over list append. -/
theorem startCount_append (l1 l2 : List SvcCall) :
    startCount (l1 ++ l2) = startCount l1 + startCount l2 := by
  simp [startCount, List.filter_append]

/-- A leading continue call does not contribute to `startCount`. -/
theorem startCount_cons_continue (c : Nat) (m : String)
    (l : List SvcCall) :
    startCount (SvcCall.continueConsult c m :: l) = startCount l := by
  simp [startCount]

/-- A leading start call contributes one to `startCount`. -/
theorem startCount_cons_start (m : String) (l : List SvcCall) :
    startCount (SvcCall.startConsult m :: l) = startCount l + 1 := by
  simp [startCount, List.filter_cons]

/-- The agent workflow contributes nothing to `startCount`. -/
theorem wf_startCount (id : Option Nat) (env : WorkflowEnv) :
    startCount (runAgentWorkflow id env).1 = 0 := by
  unfold runAgentWorkflow
  by_cases ha : env.analysisOk = false <;>
    by_cases hp : env.planOk = false <;>
      by_cases hs : env.statusOk = false <;>
        by_cases hc : env.connected = true <;>
          simp_all [startCount]

/-- With a stored consultation id, `handleSendMessage` keeps that id
and never calls `startConsultation`. -/
theorem hsm_some (s : ClientState) (t : String) (env : SendEnv)
    (cid : Nat) (hid : s.consultationId = some cid) :
    (handleSendMessage s t env).1.consultationId = some cid ∧
    startCount (handleSendMessage s t env).2 = 0 := by
  unfold handleSendMessage
  by_cases hg : isBlank t = true ∨ s.isTyping = true ∨
      s.isComplete = true
  · rw [if_pos hg]; exact ⟨hid, rfl⟩
  · rw [if_neg hg]
    cases hd : env.diag with
    | none =>
      refine ⟨hid, ?_⟩
      simp [diagCall, hid, startCount]
    | some resp =>
      cases hc : resp.completed
      · constructor
        · simp [hid, hc]
        · simp [diagCall, hid, hc, startCount]
      · constructor
        · simp [hid, hc]
        · simp only [hid, hc, diagCall, if_true]
          rw [startCount_cons_continue, wf_startCount]

/-- A whole session starting with a stored consultation id never calls
`startConsultation`. -/
theorem session_some (msgs : List (String × SendEnv)) :
    ∀ (s : ClientState) (cid : Nat), s.consultationId = some cid →
    startCount (runSession s msgs).2 = 0 := by
  induction msgs with
  | nil => intro s cid hid; simp [runSession, startCount]
  | cons p rest ih =>
    intro s cid hid
    obtain ⟨t, e⟩ := p
    have h1 := hsm_some s t e cid hid
    simp only [runSession, startCount_append, h1.2,
      ih _ _ h1.1]

/-- A message actually sent from a state with no stored id calls
`startConsultation` once and saves the id the response returns. -/
theorem hsm_none_sent (s : ClientState) (t : String) (env : SendEnv)
    (resp : DiagResponse) (k : Nat)
    (hg : ¬(isBlank t = true ∨ s.isTyping = true ∨
            s.isComplete = true))
    (hid : s.consultationId = none) (hd : env.diag = some resp)
    (hk : resp.consultationId = some k) :
    (handleSendMessage s t env).1.consultationId = some k ∧
    startCount (handleSendMessage s t env).2 = 1 := by
  unfold handleSendMessage
  rw [if_neg hg]
  cases hc : resp.completed
  · constructor
    · simp [hd, hid, hk, hc]
    · simp [hd, hid, hc, diagCall, startCount]
  · constructor
    · simp [hd, hid, hk, hc]
    · simp only [hd, hid, hc, diagCall, if_true]
      rw [startCount_cons_start, wf_startCount]

/-- Over any session whose diagnostic responses carry a consultation
id, `startConsultation` is called at most once. -/
theorem session_start_le_one (msgs : List (String × SendEnv)) :
    ∀ s : ClientState,
    (∀ p ∈ msgs, ∃ resp k, (p : String × SendEnv).2.diag = some resp ∧
        resp.consultationId = some k) →
    startCount (runSession s msgs).2 ≤ 1 := by
  induction msgs with
  | nil => intro s _; simp [runSession, startCount]
  | cons p rest ih =>
    intro s hwf
    obtain ⟨t, e⟩ := p
    obtain ⟨resp, k, hd, hk⟩ := hwf (t, e) (List.mem_cons_self _ _)
    have hrest : ∀ q ∈ rest, ∃ resp k,
        (q : String × SendEnv).2.diag = some resp ∧
        resp.consultationId = some k :=
      fun q hq => hwf q (List.mem_cons_of_mem _ hq)
    cases hid : s.consultationId with
    | some cid =>
      rw [session_some ((t, e) :: rest) s cid hid]
      exact Nat.zero_le 1
    | none =>
      by_cases hg : isBlank t = true ∨ s.isTyping = true ∨
          s.isComplete = true
      · have hstep := hsm_guard s t e hg
        simp only [runSession, hstep, startCount_append]
        simpa [startCount] using ih s hrest
      · have h1 := hsm_none_sent s t e resp k hg hid hd hk
        have h2 := session_some rest (handleSendMessage s t e).1 k h1.1
        simp only [runSession, startCount_append, h1.2, h2]
        omega

/-- The diagnostic call is a start call only from a state with no
stored id, and then carries the submitted text. -/
theorem diagCall_eq_start (s : ClientState) (t m : String)
    (h : diagCall s t = .startConsult m) :
    s.consultationId = none ∧ m = t := by
  cases hid : s.consultationId with
  | none =>
    simp [diagCall, hid] at h
    exact ⟨rfl, h.symm⟩
  | some cid => simp [diagCall, hid] at h

/-- The diagnostic call from a state with a stored id is the continue
call with exactly that id and the submitted text. -/
theorem diagCall_eq_continue (s : ClientState) (t m : String)
    (c cid : Nat) (hid : s.consultationId = some cid)
    (h : diagCall s t = .continueConsult c m) :
    c = cid ∧ m = t := by
  simp [diagCall, hid] at h
  exact ⟨h.1.symm, h.2.symm⟩

/-- C9: the chat page sends nothing while a message is in flight or
after the session is complete; `startConsultation` is called only when
no consultation id is stored, and then with the submitted text; the id
returned by a start response is saved; every continue call uses the
stored id and the submitted text; and over any session whose start
responses return an id, `startConsultation` is called at most once. -/
theorem C9_start_once_per_session :
    (∀ (s : ClientState) (t : String) (env : SendEnv),
      s.isTyping = true ∨ s.isComplete = true →
      handleSendMessage s t env = (s, [])) ∧
    (∀ (s : ClientState) (t : String) (env : SendEnv) (m : String),
      SvcCall.startConsult m ∈ (handleSendMessage s t env).2 →
      s.consultationId = none ∧ m = t) ∧
    (∀ (s : ClientState) (t : String) (env : SendEnv)
        (cid c : Nat) (m : String),
      s.consultationId = some cid →
      SvcCall.continueConsult c m ∈ (handleSendMessage s t env).2 →
      c = cid ∧ m = t) ∧
    (∀ (s : ClientState) (t : String) (env : SendEnv)
        (resp : DiagResponse) (k : Nat),
      ¬(isBlank t = true ∨ s.isTyping = true ∨ s.isComplete = true) →
      s.consultationId = none → env.diag = some resp →
      resp.consultationId = some k →
      (handleSendMessage s t env).1.consultationId = some k) ∧
    (∀ (s : ClientState) (msgs : List (String × SendEnv)),
      (∀ p ∈ msgs, ∃ resp k,
        (p : String × SendEnv).2.diag = some resp ∧
        resp.consultationId = some k) →
      startCount (runSession s msgs).2 ≤ 1) := by
  refine ⟨?_, ?_, ?_, ?_, ?_⟩
  · intro s t env h
    exact hsm_guard s t env (Or.inr h)
  · intro s t env m hmem
    rcases hsm_calls_shape s t env with h | h | ⟨resp, wid, hd, hc, h⟩
    · rw [h] at hmem; simp at hmem
    · rw [h] at hmem; simp at hmem
      exact diagCall_eq_start s t m hmem.symm
    · rw [h] at hmem
      rcases List.mem_cons.mp hmem with he | hin
      · exact diagCall_eq_start s t m he.symm
      · exact absurd hin (wf_no_start wid env.wf m)
  · intro s t env cid c m hid hmem
    rcases hsm_calls_shape s t env with h | h | ⟨resp, wid, hd, hc, h⟩
    · rw [h] at hmem; simp at hmem
    · rw [h] at hmem; simp at hmem
      exact diagCall_eq_continue s t m c cid hid hmem.symm
    · rw [h] at hmem
      rcases List.mem_cons.mp hmem with he | hin
      · exact diagCall_eq_continue s t m c cid hid he.symm
      · exact absurd hin (wf_no_continue wid env.wf c m)
  · intro s t env resp k hg hid hd hk
    exact (hsm_none_sent s t env resp k hg hid hd hk).1
  · intro s msgs hwf
    exact session_start_le_one msgs s hwf

/-- Witness for C9: a concrete in-flight state sends nothing; a
concrete first message from a fresh state is a start call with the
submitted text; a concrete continue call uses the stored id; a
concrete start response's id is saved; and a concrete one-message
session calls `startConsultation` at most once. -/
theorem C9_start_once_per_session_witness :
    (handleSendMessage exTyping "hi" exErrEnv = (exTyping, [])) ∧
    (exFresh.consultationId = none ∧ "hello" = "hello") ∧
    ((1 : Nat) = 1 ∧ "I feel dizzy" = "I feel dizzy") ∧
    ((handleSendMessage exFresh "hello" exStartEnv).1.consultationId =
        some 7) ∧
    (startCount (runSession exFresh [("hello", exStartEnv)]).2 ≤ 1) :=
  ⟨C9_start_once_per_session.1 exTyping "hi" exErrEnv (Or.inl rfl),
   C9_start_once_per_session.2.1 exFresh "hello" exErrEnv "hello"
      (by decide),
   C9_start_once_per_session.2.2.1 exClient "I feel dizzy" exSendEnv
      1 1 "I feel dizzy" rfl (by decide),
   C9_start_once_per_session.2.2.2.1 exFresh "hello" exStartEnv
      { responseText := "Since when?", completed := false,
        consultationId := some 7 } 7 (by decide) rfl rfl rfl,
   C9_start_once_per_session.2.2.2.2 exFresh [("hello", exStartEnv)]
      (by
        intro p hp
        simp only [List.mem_singleton] at hp
        rw [hp]
        exact ⟨{ responseText := "Since when?", completed := false,
                 consultationId := some 7 }, 7, rfl, rfl⟩)⟩

/-- C10 counterexample: with the calendar not connected
(`getStatus` returns `connected = false`) but the connect endpoint
returning no `authorization_url`, `handleAddMedication` falls through
and calls `medicationService.addMedication` anyway — refuting the
claim that a disconnected calendar always makes the handler return
without creating a medication. -/
theorem C10_add_medication_counterexample :
    (handleAddMedication "Aspirin"
        { status := some false, connect := some none } =
      [SvcCall.getStatus, SvcCall.getConnectUrl,
       SvcCall.addMedication "Aspirin"]) ∧
    SvcCall.addMedication "Aspirin" ∈
      handleAddMedication "Aspirin"
        { status := some false, connect := some none } :=
  ⟨rfl, by decide⟩

/-- C10 amended: when the calendar is not connected and the connect
endpoint does return an authorization URL, `handleAddMedication` opens
it and returns without calling `addMedication`, so no medication
record is created; when no authorization URL is returned it falls
through and calls `addMedication` despite the disconnected
calendar. -/
theorem C10_amended_connect_guard :
    (∀ (nm : String) (env : MedEnv) (url : String),
      env.status = some false → env.connect = some (some url) →
      handleAddMedication nm env =
        [SvcCall.getStatus, SvcCall.getConnectUrl,
         SvcCall.openAuthWindow url] ∧
      SvcCall.addMedication nm ∉ handleAddMedication nm env) ∧
    (∀ (nm : String) (env : MedEnv),
      env.status = some false → env.connect = some none →
      handleAddMedication nm env =
        [SvcCall.getStatus, SvcCall.getConnectUrl,
         SvcCall.addMedication nm]) := by
  constructor
  · intro nm env url h1 h2
    constructor <;> simp [handleAddMedication, h1, h2]
  · intro nm env h1 h2
    simp [handleAddMedication, h1, h2]

/-- Witness for the amended C10 at concrete environments. -/
theorem C10_amended_connect_guard_witness :
    (handleAddMedication "Aspirin"
        { status := some false, connect := some (some "auth-url") } =
      [SvcCall.getStatus, SvcCall.getConnectUrl,
       SvcCall.openAuthWindow "auth-url"] ∧
      SvcCall.addMedication "Aspirin" ∉
        handleAddMedication "Aspirin"
          { status := some false, connect := some (some "auth-url") }) ∧
    (handleAddMedication "Ibuprofen"
        { status := some false, connect := some none } =
      [SvcCall.getStatus, SvcCall.getConnectUrl,
       SvcCall.addMedication "Ibuprofen"]) :=
  ⟨C10_amended_connect_guard.1 "Aspirin"
      { status := some false, connect := some (some "auth-url") }
      "auth-url" rfl rfl,
   C10_amended_connect_guard.2 "Ibuprofen"
      { status := some false, connect := some none } rfl rfl⟩

end MedTwin
